import Mathlib

/-! Verification of the stravaweblib scraping client against its design
specification.  The Python sources (stravaweblib/model.py and
stravaweblib/webclient.py) are shallowly embedded below: pure parsing
helpers become Lean functions over lists of characters, the stateful
lazy-loading descriptor becomes explicit state passing, network calls
become oracle parameters or pre-fetched response values, and Python
exceptions become an explicit error type returned through Except.
-/

namespace StravaWeb

/-- Python exceptions raised by the embedded code paths. -/
inductive PyExc where
  | valueError (msg : String)
  | typeError (msg : String)
  | nameError (msg : String)
  | fault (msg : String)
  | scrapingError (msg : String)
  deriving DecidableEq, Repr

instance exceptDecEq {ε α : Type} [DecidableEq ε] [DecidableEq α] :
    DecidableEq (Except ε α)
  | .ok x, .ok y =>
    if h : x = y then isTrue (by rw [h])
    else isFalse (by intro hc; cases hc; exact h rfl)
  | .ok _, .error _ => isFalse (by intro h; cases h)
  | .error _, .ok _ => isFalse (by intro h; cases h)
  | .error e, .error f =>
    if h : e = f then isTrue (by rw [h])
    else isFalse (by intro hc; cases hc; exact h rfl)

/-- Python strings are modelled as lists of characters so that slicing,
stripping and splitting can be reasoned about structurally. -/
abbrev PyStr := List Char

/-- str.rstrip(chars): remove trailing characters drawn from the set. -/
def pyRstripSet (set : List Char) (s : PyStr) : PyStr :=
  (s.reverse.dropWhile (fun c => set.contains c)).reverse

/-- str.endswith(suf). -/
def pyEndsWith (suf : PyStr) (s : PyStr) : Bool :=
  suf.isSuffixOf s

/-- Numeric value of a digit string (the integer part of a float literal). -/
def digitsVal (s : PyStr) : Nat :=
  s.foldl (fun a c => a * 10 + (c.toNat - 48)) 0

/-- float(s) for the simple non-negative decimal literals produced by the
scraper after stripping units and commas ("12.3", "5", "1234.5").
Represented exactly as mantissa / 10 ^ scale; Python's binary float
rounding error is far too small to move any of the truncated integer
results appearing in this file. -/
def parseDecimal (s : PyStr) : Nat × Nat :=
  match s.splitOn '.' with
  | [w] => (digitsVal w, 0)
  | [w, f] => (digitsVal w * 10 ^ f.length + digitsVal f, f.length)
  | _ => (0, 0)

/-- The miles-to-meters constant 1609.34708 as mantissa / 10 ^ scale. -/
def milesConst : Nat × Nat := (160934708, 5)

/-- webclient.py, get_bike_details component loop:
mul = 1609.34708 if text[5].endswith("mi") else 1000
distance = int(float(text[5].rstrip(" kmi").replace(",", "")) * mul)
int() truncates toward zero; both factors are non-negative here, so the
exact value is floor of (mantissa product / 10 ^ scale sum), which is
Nat division. -/
def cleanDistanceCell (s : PyStr) : PyStr :=
  (pyRstripSet [' ', 'k', 'm', 'i'] s).filter (fun c => c != ',')

def parseDistanceCell (s : PyStr) : Int :=
  let mul : Nat × Nat := if pyEndsWith ['m', 'i'] s then milesConst else (1000, 0)
  let v := parseDecimal (cleanDistanceCell s)
  Int.ofNat (v.1 * mul.1 / 10 ^ (v.2 + mul.2))

/-! Workout-type decoding and the activity-list pagination loop
(webclient.py, ACTIVITY_WORKOUT_TYPES and ScrapingClient.get_activities) -/

/-- webclient.py ACTIVITY_WORKOUT_TYPES.  Python dicts keep insertion
order, which the decoding loop iterates over; modelled as ordered
association lists. -/
def ACTIVITY_WORKOUT_TYPES : List (String × List (Option String × Int)) :=
  [("Ride", [(none, 10), (some "Race", 11), (some "Workout", 12)]),
   ("Run", [(none, 0), (some "Race", 1), (some "Long Run", 2), (some "Workout", 3)])]

/-- ACTIVITY_WORKOUT_TYPES lookup by activity type
(activity["type"] in ACTIVITY_WORKOUT_TYPES). -/
def workoutTypeTable (t : String) : Option (List (Option String × Int)) :=
  (ACTIVITY_WORKOUT_TYPES.find? (fun p => p.1 == t)).map Prod.snd

/-- The get_activities inner translation loop:
wt = activity.pop("workout_type")
if activity["type"] in ACTIVITY_WORKOUT_TYPES:
    for k, v in ACTIVITY_WORKOUT_TYPES[activity["type"]].items():
        if wt == v: activity["workout_type"] = k; break
A raw value absent from the table (or a type with no table) never sets the
key, so the entity attribute stays None.  The raw JSON value may be null,
and null == v is false for every int v. -/
def decodeWorkoutType (t : String) (raw : Option Int) : Option String :=
  match workoutTypeTable t with
  | none => none
  | some tbl =>
    match tbl.find? (fun kv => raw == some kv.2) with
    | some kv => kv.1
    | none => none

/-- One raw activity record from the paged JSON listing endpoint
(the fields the loop inspects). -/
structure RawActivity where
  start_date : Int
  type : String
  workout_type : Option Int
  deriving DecidableEq, Repr

/-- The ScrapedActivity fields produced from one raw listing record. -/
structure ScrapedActivityRec where
  start_date : Int
  type : String
  workout_type : Option String
  deriving DecidableEq, Repr

/-- Constructing the ScrapedActivity yielded by get_activities from one
raw listing record (after the workout-type translation). -/
def convertActivity (a : RawActivity) : ScrapedActivityRec :=
  { start_date := a.start_date
    type := a.type
    workout_type := decodeWorkoutType a.type a.workout_type }

/-- The per-page for-loop of get_activities.  Input: the page's raw
records and num_yielded so far.  Output: the activities yielded from this
page, the new num_yielded, and whether the generator returned early
(limit reached, or an activity older than the after bound was seen —
results arrive newest first, so the loop stops for good there).
Activities newer than the before bound are skipped but the loop goes on. -/
def limitHit : Option Nat → Nat → Bool
  | some l, n => decide (l ≤ n)
  | none, _ => false

def processPage (before after : Int) (limit : Option Nat) :
    List RawActivity → Nat → List ScrapedActivityRec × Nat × Bool
  | [], n => ([], n, false)
  | a :: rest, n =>
    if limitHit limit n then ([], n, true)
    else
      let act := convertActivity a
      if act.start_date < after then ([], n, true)
      else if before < act.start_date then processPage before after limit rest n
      else
        let r := processPage before after limit rest (n + 1)
        (act :: r.1, r.2.1, r.2.2)

/-- The outer while-True page loop of get_activities.  The HTTP endpoint
is modelled by the finite list of pages it would serve in order; a request
past the end of that list returns an empty page (no more data).  The
second component counts the page requests issued.  A page with no records
terminates the generator; page numbers increment by one each round. -/
def runPages (before after : Int) (limit : Option Nat) :
    List (List RawActivity) → Nat → List ScrapedActivityRec × Nat
  | [], _ => ([], 1)
  | p :: rest, n =>
    if p.isEmpty then ([], 1)
    else
      let r := processPage before after limit p n
      if r.2.2 then (r.1, 1)
      else
        let r2 := runPages before after limit rest r.2.1
        (r.1 ++ r2.1, r2.2 + 1)

/-- ScrapingClient.get_activities restricted to its data path: the pages
served by the endpoint, the before/after epoch bounds, and the limit.
Returns the yielded ScrapedActivity records and the number of page
requests issued. -/
def get_activities (pages : List (List RawActivity)) (before after : Int)
    (limit : Option Nat) : List ScrapedActivityRec × Nat :=
  runPages before after limit pages 0

/-! The LazyLoaded descriptor (model.py, LazyLoaded.__get__, key branch)

Python dicts are modelled as association lists whose lookup prefers the
most recently written binding; dict.update is therefore prepending the
new entries, which has exactly the lookup and key-membership semantics of
the real dict. -/

def dictLookup {V : Type} (d : List (String × V)) (k : String) : Option V :=
  (d.find? (fun p => p.1 == k)).map Prod.snd

def dictHasKey {V : Type} (d : List (String × V)) (k : String) : Bool :=
  d.any (fun p => p.1 == k)

def dictUpdate {V : Type} (d new : List (String × V)) : List (String × V) :=
  new ++ d

/-- The attribute state a LazyLoaded key-based descriptor sees on one
entity instance: per-attribute stored values (the descriptor's data map;
None and absent coincide under data.get), the optional _lazyload_cache
dict, and a counter of load_attribute invocations (each one is an
underlying fetch such as get_extra_activity_details). -/
structure LazyState (V : Type) where
  stored : String → Option V
  cache : Option (List (String × V))
  fetches : Nat

/-- LazyLoaded.__get__ for a key-based, non-property attribute, on an
instance (obj is not None, self._property is False, self._key = key):
if the stored value is not None it is returned as-is; otherwise the
_lazyload_cache is created if missing, load_attribute is invoked when the
key is absent from the cache (its result, or {} for None, updates the
cache), and the value is read out of the cache without being stored on
the attribute. -/
def lazyGetKey {V : Type} (fetch : List (String × V)) (key : String)
    (s : LazyState V) : Option V × LazyState V :=
  match s.stored key with
  | some v => (some v, s)
  | none =>
    let cache := s.cache.getD []
    if dictHasKey cache key then
      (dictLookup cache key, { s with cache := some cache })
    else
      let cache2 := dictUpdate cache fetch
      (dictLookup cache2 key,
       { s with cache := some cache2, fetches := s.fetches + 1 })

/-- A sequence of attribute accesses, returning every access's result and
the final state. -/
def lazyGetSeq {V : Type} (fetch : List (String × V)) :
    List String → LazyState V → List (Option V) × LazyState V
  | [], s => ([], s)
  | k :: ks, s =>
    let r := lazyGetKey fetch k s
    let r2 := lazyGetSeq fetch ks r.2
    (r.1 :: r2.1, r2.2)

/-- The grouped lazy-load keys declared on ScrapedActivity
(manual, photos, device_name all resolve through load_attribute, which
calls get_extra_activity_details once). -/
def scrapedActivityLazyKeys : List String := ["manual", "photos", "device_name"]

/-! Bike components as of a date (model.py, _ScrapedBikeData.components_on_date) -/

/-- A ScrapedBikeComponent after from_dict: dates are datetime.date values,
modelled by their proleptic-Gregorian ordinal (datetime.date.toordinal);
None means the date is absent. -/
structure ScrapedBikeComponentRec where
  id : Int
  type : String
  added : Option Int
  removed : Option Int
  distance : Int
  deriving DecidableEq, Repr

/-- datetime.date.min.toordinal() — 0001-01-01. -/
def dateMinOrd : Int := 1

/-- datetime.date.max.toordinal() — 9999-12-31. -/
def dateMaxOrd : Int := 3652059

/-- The on_date argument of components_on_date: None, a date, or a
datetime (a date plus a time of day, which .date() discards). -/
inductive OnDateArg where
  | none
  | date (ord : Int)
  | datetime (ord : Int) (secondsIntoDay : Nat)
  deriving DecidableEq, Repr

/-- model.py components_on_date:
if on_date is None: return self.components
if isinstance(on_date, datetime): on_date = on_date.date()
return [c for c in self.components
        if (c.added or date.min) <= on_date <= (c.removed or date.max)] -/
def components_on_date (comps : List ScrapedBikeComponentRec)
    (on_date : OnDateArg) : List ScrapedBikeComponentRec :=
  match on_date with
  | .none => comps
  | .date o =>
    comps.filter (fun c =>
      decide (c.added.getD dateMinOrd ≤ o) && decide (o ≤ c.removed.getD dateMaxOrd))
  | .datetime o _ =>
    comps.filter (fun c =>
      decide (c.added.getD dateMinOrd ≤ o) && decide (o ≤ c.removed.getD dateMaxOrd))

/-! JWT login (webclient.py, ScrapingClient._login_with_jwt / athlete_id) -/

/-- The decoded JWT payload fields the login inspects; None models an
absent key (a KeyError on access). -/
structure JwtPayload where
  exp : Option Int
  sub : Option Int
  deriving DecidableEq, Repr

/-- Session cookies set by the login.  strava_remember_id holds
str(data["sub"]); since the subject is an integer and int(str(n)) = n,
the cookie is modelled by the integer itself. -/
structure SessionCookies where
  strava_remember_id : Option Int
  strava_remember_token : Option String
  deriving DecidableEq, Repr

/-- ScrapingClient._login_with_jwt.  The base64/JSON decode of the
token's middle segment is modelled by the decoded argument: none when the
try-block fails (ValueError "Failed to parse JWT payload"), some payload
otherwise.  Then, as in the source: a missing exp or sub key raises
KeyError, converted to ValueError "Failed to extract required data from
the JWT"; an exp strictly before now raises ValueError "JWT has expired";
otherwise both cookies are set. -/
def login_with_jwt (decoded : Option JwtPayload) (jwt : String) (now : Int) :
    Except PyExc SessionCookies :=
  match decoded with
  | none => .error (.valueError "Failed to parse JWT payload")
  | some data =>
    match data.exp with
    | none => .error (.valueError "Failed to extract required data from the JWT")
    | some e =>
      if e < now then .error (.valueError "JWT has expired")
      else
        match data.sub with
        | none => .error (.valueError "Failed to extract required data from the JWT")
        | some sb =>
          .ok { strava_remember_id := some sb, strava_remember_token := some jwt }

/-- ScrapingClient.athlete_id: int(self._session.cookies.get('strava_remember_id')).
A missing cookie makes cookies.get return None and int(None) raise TypeError. -/
def athlete_id (s : SessionCookies) : Except PyExc Int :=
  match s.strava_remember_id with
  | some i => .ok i
  | none => .error (.typeError "int() argument cannot be NoneType")

/-! Export files (webclient.py, ScrapingClient._make_export_file and
get_activity_data) -/

/-- DataFormat (model.py). -/
inductive DataFormat where
  | original
  | gpx
  | tcx
  deriving DecidableEq, Repr

/-- ScrapingClient._make_export_file, filename computation.  cdFilename is
the filename parsed out of the Content-Disposition header (None when the
header or its filename parameter is absent, and cgi.parse_header can also
yield an empty string, which the truthiness test treats like None).  The
source then runs, inside the staticmethod whose only parameters are resp
and id_:

    if "." not in filename:
        if fmt is DataFormat.ORIGINAL: ...

fmt is not a name in scope there, so reaching that branch raises
NameError instead of appending an extension. -/
def make_export_file_filename (cdFilename : Option String) (id_ : Int) :
    Except PyExc String :=
  let filename :=
    match cdFilename with
    | some f => if f == "" then toString id_ else f
    | none => toString id_
  if filename.toList.contains '.' then .ok filename
  else .error (.nameError "name fmt is not defined")

/-- The export endpoint's response, as far as get_activity_data inspects
it: the HTTP status, whether Content-Type is application/json, and the
Content-Disposition filename. -/
structure ExportResp where
  status : Nat
  contentTypeJson : Bool
  cdFilename : Option String

/-- DataFormat(x): the enum constructor call at the top of
get_activity_data.  DataFormat(None) — the json_fmt default — raises
ValueError before any request is made. -/
def dataFormatOfArg : Option DataFormat → Except PyExc DataFormat
  | some f => .ok f
  | none => .error (.valueError "None is not a valid DataFormat")

/-- ScrapingClient.get_activity_data.  The export endpoint is modelled by
server (the response for each requested format); the second component of
the result counts requests issued.  The recursion (retry with fmt :=
json_fmt, json_fmt := ORIGINAL when an original-format download came back
as JSON) has depth at most 2 in the source — the retried call either has
fmt different from ORIGINAL or json_fmt equal to fmt, so its retry guard
is false — hence fuel 2 in the wrapper below covers every actual path and
the fuel-0 branch is unreachable from it. -/
def get_activity_data_fuel (server : DataFormat → ExportResp) (activity_id : Int) :
    Nat → Option DataFormat → Option DataFormat → Except PyExc String × Nat
  | 0, _, _ => (.error (.fault "unreachable recursion bound"), 0)
  | fuel + 1, fmtArg, jsonFmtArg =>
    match dataFormatOfArg fmtArg with
    | .error e => (.error e, 0)
    | .ok fmt =>
      match dataFormatOfArg jsonFmtArg with
      | .error e => (.error e, 0)
      | .ok json_fmt =>
        let resp := server fmt
        if resp.status ≠ 200 then
          (.error (.fault "Status code received when trying to download an activity"), 1)
        else if fmt = DataFormat.original ∧ json_fmt ≠ fmt ∧ resp.contentTypeJson = true then
          let r := get_activity_data_fuel server activity_id fuel
            (some json_fmt) (some DataFormat.original)
          (r.1, r.2 + 1)
        else
          match make_export_file_filename resp.cdFilename activity_id with
          | .ok fn => (.ok fn, 1)
          | .error e => (.error e, 1)

/-- ScrapingClient.get_activity_data with its Python call signature:
fmt defaults to DataFormat.ORIGINAL and json_fmt to None. -/
def get_activity_data (server : DataFormat → ExportResp) (activity_id : Int)
    (fmtArg jsonFmtArg : Option DataFormat) : Except PyExc String × Nat :=
  get_activity_data_fuel server activity_id 2 fmtArg jsonFmtArg

/-! Gear listing generators (webclient.py, get_all_bikes / get_all_shoes /
get_all_gear)

Each of these is a Python generator, so its body only starts running at
the first next() on the returned generator object; the functions below
model that body.  The network fetches the body can make are supplied as
oracles, each returning its parsed result together with the number of
HTTP requests it issued. -/

/-- The fields of a scraped gear entity that matter here. -/
structure ScrapedGearRec where
  id : Option String
  name : Option String
  deriving DecidableEq, Repr

/-- int(athlete_id) at the top of get_all_bikes / get_all_shoes:
int(None) raises TypeError. -/
def pyIntOfOptional : Option Int → Except PyExc Int
  | some i => .ok i
  | none => .error (.typeError "int() argument cannot be NoneType")

/-- get_all_bikes body: int(athlete_id) first; another athlete's id
delegates to get_athlete(athlete_id).bikes, the logged-in athlete's id
fetches and parses the gear/bikes JSON page. -/
def get_all_bikes (self_id : Int)
    (getAthleteBikes : Int → Except PyExc (List ScrapedGearRec) × Nat)
    (ownBikesPage : Except PyExc (List ScrapedGearRec) × Nat)
    (athlete_id : Option Int) : Except PyExc (List ScrapedGearRec) × Nat :=
  match pyIntOfOptional athlete_id with
  | .error e => (.error e, 0)
  | .ok a => if a ≠ self_id then getAthleteBikes a else ownBikesPage

/-- get_all_shoes body: same shape as get_all_bikes. -/
def get_all_shoes (self_id : Int)
    (getAthleteShoes : Int → Except PyExc (List ScrapedGearRec) × Nat)
    (ownShoesPage : Except PyExc (List ScrapedGearRec) × Nat)
    (athlete_id : Option Int) : Except PyExc (List ScrapedGearRec) × Nat :=
  match pyIntOfOptional athlete_id with
  | .error e => (.error e, 0)
  | .ok a => if a ≠ self_id then getAthleteShoes a else ownShoesPage

/-- get_all_gear body: yield from get_all_bikes(); yield from
get_all_shoes() — both with no athlete_id argument. -/
def get_all_gear (self_id : Int)
    (getAthleteBikes getAthleteShoes : Int → Except PyExc (List ScrapedGearRec) × Nat)
    (ownBikesPage ownShoesPage : Except PyExc (List ScrapedGearRec) × Nat) :
    Except PyExc (List ScrapedGearRec) × Nat :=
  match get_all_bikes self_id getAthleteBikes ownBikesPage none with
  | (.error e, n) => (.error e, n)
  | (.ok bs, n) =>
    match get_all_shoes self_id getAthleteShoes ownShoesPage none with
    | (.error e, m) => (.error e, n + m)
    | (.ok ss, m) => (.ok (bs ++ ss), n + m)

/-! Athlete display name (model.py, ScrapedAthlete.from_dict and the
_AthleteData name property) -/

/-- Python str.isspace characters relevant to str.strip(). -/
def pyIsSpace (c : Char) : Bool :=
  c == ' ' || c == '\t' || c == '\n' || c == '\r' || c == '\x0b' || c == '\x0c'

/-- str.strip(): drop leading and trailing whitespace. -/
def pyStrip (s : PyStr) : PyStr :=
  ((s.dropWhile pyIsSpace).reverse.dropWhile pyIsSpace).reverse

/-- name.split(" ", 1) followed by the 2-tuple unpack in from_dict:
some (before-first-space, after-first-space) when the name contains a
space, none when it does not (where the unpack raises ValueError). -/
def pySplitOnceSpace (s : PyStr) : Option (PyStr × PyStr) :=
  match s.dropWhile (fun c => c != ' ') with
  | [] => none
  | _ :: rest => some (s.takeWhile (fun c => c != ' '), rest)

/-- The name-related keys of the dict given to ScrapedAthlete.from_dict;
none models an absent key. -/
structure AthleteDict where
  name : Option PyStr
  first_name : Option PyStr
  last_name : Option PyStr
  firstname : Option PyStr
  lastname : Option PyStr

/-- The name fields of the constructed ScrapedAthlete entity. -/
structure AthleteRec where
  firstname : Option PyStr
  lastname : Option PyStr
  deriving DecidableEq, Repr

/-- ScrapedAthlete.from_dict restricted to the name fields:
_dict_modify(d, "first_name", "firstname") and ("last_name", "lastname")
rename with overwrite, then
name = d.pop("name", None)
if name and "firstname" not in d and "lastname" not in d:
    d["firstname"], d["lastname"] = name.split(" ", 1) -/
def scrapedAthlete_from_dict (d : AthleteDict) : Except PyExc AthleteRec :=
  let firstname1 := d.first_name <|> d.firstname
  let lastname1 := d.last_name <|> d.lastname
  match d.name with
  | none => .ok { firstname := firstname1, lastname := lastname1 }
  | some nm =>
    if nm.isEmpty then .ok { firstname := firstname1, lastname := lastname1 }
    else if firstname1 = none ∧ lastname1 = none then
      match pySplitOnceSpace nm with
      | some (f, l) => .ok { firstname := some f, lastname := some l }
      | none => .error (.valueError "not enough values to unpack")
    else .ok { firstname := firstname1, lastname := lastname1 }

/-- The _AthleteData name attribute — a LazyLoaded property recomputed on
every read:
lambda x: "{} {}".format(x.firstname or "", x.lastname or "").strip() -/
def athlete_display_name (a : AthleteRec) : PyStr :=
  pyStrip (a.firstname.getD [] ++ ' ' :: a.lastname.getD [])

/-- Space-join recomposition: the words of a display name as Strava
renders it, separated by single spaces.  Used to state the round-trip
claim. -/
def joinWords : List PyStr → PyStr
  | [] => []
  | [w] => w
  | w :: x :: ws => w ++ ' ' :: joinWords (x :: ws)

/-! Theorems -/

/-- The exact rational value of a mantissa / 10 ^ scale pair. -/
def decValue (v : Nat × Nat) : Rat := (v.1 : Rat) / 10 ^ v.2

/-- Truncating Nat division implements the rational floor. -/
theorem natDiv_eq_ratFloor (m n : Nat) :
    ((m / n : Nat) : Int) = Int.floor ((m : Rat) / (n : Rat)) := by
  have h0 : (0 : Rat) ≤ (m : Rat) / (n : Rat) := by positivity
  have h1 : (0 : Int) ≤ Int.floor ((m : Rat) / (n : Rat)) := Int.floor_nonneg.mpr h0
  have h2 := Int.floor_toNat ((m : Rat) / (n : Rat))
  have h3 := Nat.floor_div_eq_div (α := Rat) m n
  omega

/-- C4 counterexample: the distance cell "12.3 mi" parses to 19794 meters,
not 19805 (nor within one meter of it); 12.3 × 1609.34708 = 19794.969084,
which int() truncates to 19794. -/
theorem distance_mi_example_not_19805 :
    parseDistanceCell ("12.3 mi").toList = 19794 ∧
    ¬(parseDistanceCell ("12.3 mi").toList - 19805).natAbs ≤ 1 := by decide

/-- C4 (amended): a distance cell ending in "mi" is multiplied by the
miles-to-meters constant 1609.34708 and one in km (or bare) by 1000, with
the exact product truncated to an integer number of meters; in particular
"12.3 mi" parses to 19794 meters and "5 km" parses to 5000 meters. -/
theorem distance_cell_parsing :
    parseDistanceCell ("5 km").toList = 5000 ∧
    parseDistanceCell ("12.3 mi").toList = 19794 ∧
    (∀ s : PyStr,
      parseDistanceCell s =
        Int.floor (decValue (parseDecimal (cleanDistanceCell s)) *
          (if pyEndsWith ['m', 'i'] s then (160934708 : Rat) / 100000 else 1000))) := by
  refine ⟨by decide, by decide, fun s => ?_⟩
  unfold parseDistanceCell
  rcases hv : parseDecimal (cleanDistanceCell s) with ⟨m, sc⟩
  have h10 : ((10 : Rat)) ^ sc ≠ 0 := by positivity
  rcases hmi : pyEndsWith ['m', 'i'] s with _ | _ <;>
      simp only [if_false, if_true, milesConst, decValue, hv, Int.ofNat_eq_natCast] <;>
      rw [natDiv_eq_ratFloor] <;> congr 1 <;> push_cast [pow_add] <;> field_simp

/-- C6: workout-type decoding in the get_activities pipeline — a raw Ride
activity with raw workout_type 11 yields workout_type "Race"; a raw value
matching no table entry, or an activity type with no table at all, yields
workout_type None. -/
theorem workout_type_decoding :
    (∀ a : RawActivity, a.type = "Ride" → a.workout_type = some 11 →
      (convertActivity a).workout_type = some "Race") ∧
    (∀ a : RawActivity, ∀ tbl, workoutTypeTable a.type = some tbl →
      (∀ kv ∈ tbl, a.workout_type ≠ some kv.2) →
      (convertActivity a).workout_type = none) ∧
    (∀ a : RawActivity, workoutTypeTable a.type = none →
      (convertActivity a).workout_type = none) := by
  refine ⟨fun a h1 h2 => ?_, fun a tbl htbl hnone => ?_, fun a htbl => ?_⟩
  · simp only [convertActivity]
    rw [h1, h2]
    decide
  · have hfind : tbl.find? (fun kv => a.workout_type == some kv.2) = none := by
      rw [List.find?_eq_none]
      intro kv hkv
      simpa using hnone kv hkv
    simp only [convertActivity, decodeWorkoutType, htbl, hfind]
  · simp only [convertActivity, decodeWorkoutType, htbl]

/-- C6 witness: concrete decodings through the pipeline's record
conversion — Ride/11 gives "Race", Ride/99 gives None (99 is in no table
row), Swim has no table so any raw value gives None. -/
theorem workout_type_decoding_witness :
    (convertActivity ⟨100, "Ride", some 11⟩).workout_type = some "Race" ∧
    (convertActivity ⟨100, "Ride", some 99⟩).workout_type = none ∧
    (convertActivity ⟨100, "Swim", some 3⟩).workout_type = none := by
  refine ⟨workout_type_decoding.1 _ rfl rfl, ?_, workout_type_decoding.2.2 _ (by decide)⟩
  exact workout_type_decoding.2.1 _
    [(none, 10), (some "Race", 11), (some "Workout", 12)] (by decide) (by decide)

/-- C7 (code bug): when the Content-Disposition header supplies a filename
(necessarily containing a period — Strava strips periods otherwise) it is
returned as-is, but whenever the filename has to be synthesized from the
id, or the supplied name has no period, the extension-appending branch
reads the unbound name fmt and raises NameError instead of producing
"1234.dat" / "1234.gpx" as documented. -/
theorem export_filename_name_error :
    make_export_file_filename (some "ride.gpx") 1234 = .ok "ride.gpx" ∧
    make_export_file_filename none 1234 =
      .error (.nameError "name fmt is not defined") ∧
    make_export_file_filename (some "") 1234 =
      .error (.nameError "name fmt is not defined") :=
  ⟨rfl, rfl, rfl⟩

/-- C8: calling get_activity_data with the default json_fmt argument
(None) raises ValueError from the DataFormat conversion before any HTTP
request is issued, for every server, activity id and fmt; the documented
GPX fallback default is never applied. -/
theorem get_activity_data_default_json_fmt_value_error
    (server : DataFormat → ExportResp) (activity_id : Int) (fmt : DataFormat) :
    get_activity_data server activity_id (some fmt) none =
      (.error (.valueError "None is not a valid DataFormat"), 0) :=
  rfl

/-- C9: get_all_bikes and get_all_shoes called with the default athlete_id
(None) raise TypeError from int(None) as soon as the generator body runs
(its first iteration), with zero network requests issued; get_all_gear
delegates to both with no athlete_id and therefore always raises the same
way. -/
theorem gear_generators_default_athlete_type_error
    (self_id : Int)
    (gab gas : Int → Except PyExc (List ScrapedGearRec) × Nat)
    (obp osp : Except PyExc (List ScrapedGearRec) × Nat) :
    get_all_bikes self_id gab obp none =
      (.error (.typeError "int() argument cannot be NoneType"), 0) ∧
    get_all_shoes self_id gas osp none =
      (.error (.typeError "int() argument cannot be NoneType"), 0) ∧
    get_all_gear self_id gab gas obp osp =
      (.error (.typeError "int() argument cannot be NoneType"), 0) :=
  ⟨rfl, rfl, rfl⟩

/-- C3: token-based login — a token whose decoded expiry is strictly
before now fails with the expired error; a well-formed token (payload
decodes, exp and sub present) that is not expired succeeds, and the
numeric identity cookie read back through athlete_id equals the payload's
sub field.  The source raises ValueError for both auth failures; the
spec's AuthError is its design-level name for exactly these errors. -/
theorem jwt_login_expiry_and_identity (p : JwtPayload) (jwt : String)
    (now e sb : Int) (hexp : p.exp = some e) (hsub : p.sub = some sb) :
    (e < now → login_with_jwt (some p) jwt now =
      .error (.valueError "JWT has expired")) ∧
    (¬e < now → ∃ s, login_with_jwt (some p) jwt now = .ok s ∧
      athlete_id s = .ok sb ∧ s.strava_remember_token = some jwt) := by
  constructor
  · intro hlt
    simp only [login_with_jwt, hexp, hsub, if_pos hlt]
  · intro hge
    refine ⟨⟨some sb, some jwt⟩, ?_, rfl, rfl⟩
    simp only [login_with_jwt, hexp, hsub, if_neg hge]

/-- C3 witness: a token expiring at 10 checked at time 100 is rejected as
expired; a token expiring at 1000 with subject 42 checked at time 100
yields a session whose athlete_id is 42. -/
theorem jwt_login_expiry_and_identity_witness :
    login_with_jwt (some ⟨some 10, some 7⟩) "tok" 100 =
      .error (.valueError "JWT has expired") ∧
    ∃ s, login_with_jwt (some ⟨some 1000, some 42⟩) "tok" 100 = .ok s ∧
      athlete_id s = .ok 42 ∧ s.strava_remember_token = some "tok" :=
  ⟨(jwt_login_expiry_and_identity ⟨some 10, some 7⟩ "tok" 100 10 7
      rfl rfl).1 (by decide),
   (jwt_login_expiry_and_identity ⟨some 1000, some 42⟩ "tok" 100 1000 42
      rfl rfl).2 (by decide)⟩

/-- C2: a component with removed = None is in components_on_date(d) for
every calendar date d on or after its added date (the minimum
representable date when added is absent); the filter is the single
inclusive range check (added or date.min) <= d <= (removed or date.max),
and a datetime argument is reduced to its date, discarding the time of
day. -/
theorem components_on_date_range_check (comps : List ScrapedBikeComponentRec)
    (c : ScrapedBikeComponentRec) (o : Int) (t : Nat)
    (hmem : c ∈ comps) (hrem : c.removed = none)
    (hvalid : dateMinOrd ≤ o ∧ o ≤ dateMaxOrd)
    (hadded : c.added.getD dateMinOrd ≤ o) :
    c ∈ components_on_date comps (.date o) ∧
    components_on_date comps (.datetime o t) = components_on_date comps (.date o) ∧
    (∀ c2, c2 ∈ components_on_date comps (.date o) ↔
      c2 ∈ comps ∧ c2.added.getD dateMinOrd ≤ o ∧ o ≤ c2.removed.getD dateMaxOrd) := by
  refine ⟨?_, rfl, fun c2 => ?_⟩
  · rw [components_on_date, List.mem_filter]
    refine ⟨hmem, ?_⟩
    simp [hrem, hadded, hvalid.2]
  · rw [components_on_date, List.mem_filter]
    simp

/-- C2 witness: a chain component added at ordinal 5 and never removed is
returned for date ordinal 10, with the datetime argument (ordinal 10,
12:00:00 into the day) filtered identically. -/
theorem components_on_date_range_check_witness :
    (⟨7, "Chain", some 5, none, 1200⟩ : ScrapedBikeComponentRec) ∈
      components_on_date [⟨7, "Chain", some 5, none, 1200⟩, ⟨8, "Tire", some 20, none, 0⟩]
        (.date 10) ∧
    components_on_date [⟨7, "Chain", some 5, none, 1200⟩, ⟨8, "Tire", some 20, none, 0⟩]
        (.datetime 10 43200) =
      components_on_date [⟨7, "Chain", some 5, none, 1200⟩, ⟨8, "Tire", some 20, none, 0⟩]
        (.date 10) ∧
    (∀ c2, c2 ∈ components_on_date
        [⟨7, "Chain", some 5, none, 1200⟩, ⟨8, "Tire", some 20, none, 0⟩] (.date 10) ↔
      c2 ∈ [(⟨7, "Chain", some 5, none, 1200⟩ : ScrapedBikeComponentRec),
            ⟨8, "Tire", some 20, none, 0⟩] ∧
      c2.added.getD dateMinOrd ≤ 10 ∧ (10 : Int) ≤ c2.removed.getD dateMaxOrd) :=
  components_on_date_range_check _ _ 10 43200 (by decide) rfl (by decide) (by decide)

/-- With no caller limit and every record inside the requested time
window, the per-page loop yields every record of the page, converted, and
does not return early. -/
theorem processPage_all_in_range (before after : Int) (p : List RawActivity) (n : Nat)
    (h : ∀ a ∈ p, after ≤ a.start_date ∧ a.start_date ≤ before) :
    processPage before after none p n = (p.map convertActivity, n + p.length, false) := by
  induction p generalizing n with
  | nil => rfl
  | cons a rest ih =>
    have ha := h a (List.mem_cons_self a rest)
    have h1 : ¬(convertActivity a).start_date < after := not_lt.mpr ha.1
    have h2 : ¬before < (convertActivity a).start_date := not_lt.mpr ha.2
    simp only [processPage, limitHit, Bool.false_eq_true, if_false, if_neg h1, if_neg h2,
      ih (n + 1) (fun b hb => h b (List.mem_cons_of_mem a hb))]
    simp [Nat.add_comm, Nat.add_assoc, Nat.add_left_comm]

/-- C5: offset pagination in get_activities — when the listing endpoint
serves a run of non-empty pages followed by an empty page (with the
default unlimited limit and every served record inside the before/after
window), the generator yields exactly the converted records of the
non-empty pages in order, requests exactly one page beyond them (the
empty page, which terminates it), and never touches the pages after the
empty one.  No failure path is involved: the loop body only raises on
non-200 responses or undecodable JSON, which the served pages here are
not. -/
theorem pagination_stops_at_empty_page (front back : List (List RawActivity))
    (before after : Int)
    (hfront : ∀ p ∈ front, p ≠ [])
    (hts : ∀ p ∈ front, ∀ a ∈ p, after ≤ a.start_date ∧ a.start_date ≤ before) :
    get_activities (front ++ [] :: back) before after none =
      (front.flatten.map convertActivity, front.length + 1) := by
  unfold get_activities
  suffices hgen : ∀ n, runPages before after none (front ++ [] :: back) n =
      (front.flatten.map convertActivity, front.length + 1) from hgen 0
  induction front with
  | nil => intro n; rfl
  | cons p front' ih =>
    intro n
    have hp : p ≠ [] := hfront p (List.mem_cons_self p front')
    have hrec := processPage_all_in_range before after p n
      (hts p (List.mem_cons_self p front'))
    rw [List.cons_append, runPages, if_neg (by simpa using hp), hrec]
    simp only [Bool.false_eq_true, if_false]
    rw [ih (fun q hq => hfront q (List.mem_cons_of_mem p hq))
        (fun q hq => hts q (List.mem_cons_of_mem p hq))]
    simp

/-- C5 witness: two non-empty pages, an empty page, then a further page
that must not be requested; the generator yields the two converted
records and issues three page requests. -/
theorem pagination_stops_at_empty_page_witness :
    get_activities [[⟨100, "Ride", some 11⟩], [⟨90, "Run", none⟩], [], [⟨80, "Ride", none⟩]]
        1000 0 none =
      (([[(⟨100, "Ride", some 11⟩ : RawActivity)], [⟨90, "Run", none⟩]] :
          List (List RawActivity)).flatten.map convertActivity, 2 + 1) :=
  pagination_stops_at_empty_page
    [[⟨100, "Ride", some 11⟩], [⟨90, "Run", none⟩]] [[⟨80, "Ride", none⟩]]
    1000 0 (by decide) (by decide)

/-- Accesses to keys already present in the _lazyload_cache (with no
stored attribute value) read from the cache and leave the state — in
particular the fetch counter — untouched. -/
theorem lazyGetSeq_cached {V : Type} (fetch c : List (String × V)) (ks : List String)
    (s : LazyState V) (hc : s.cache = some c)
    (hstored : ∀ k ∈ ks, s.stored k = none)
    (hkeys : ∀ k ∈ ks, dictHasKey c k = true) :
    lazyGetSeq fetch ks s = (ks.map (dictLookup c), s) := by
  induction ks with
  | nil => rfl
  | cons k ks ih =>
    have hk := hstored k (List.mem_cons_self k ks)
    have hhas := hkeys k (List.mem_cons_self k ks)
    have hs : { s with cache := some c } = s := by rw [← hc]
    simp only [lazyGetSeq, lazyGetKey, hk, hc, Option.getD_some, hhas, if_true, hs,
      ih (fun j hj => hstored j (List.mem_cons_of_mem k hj))
        (fun j hj => hkeys j (List.mem_cons_of_mem k hj)),
      List.map_cons]

/-- C1: grouped lazy loading — starting from an entity with no
_lazyload_cache and none of the accessed grouped attributes stored, a
non-empty sequence of accesses to fields whose keys the grouped fetch
fills invokes load_attribute exactly once: the first access fetches and
stores the whole result dict in the per-instance _lazyload_cache, every
access (the first included) returns the fetched value for its key straight
from that cache, and no attribute value is ever written back. -/
theorem lazy_group_fetch_once {V : Type} (fetch : List (String × V))
    (k0 : String) (ks : List String) (s : LazyState V)
    (hcache : s.cache = none)
    (hstored : ∀ k ∈ k0 :: ks, s.stored k = none)
    (hfetch : ∀ k ∈ k0 :: ks, dictHasKey fetch k = true) :
    (lazyGetSeq fetch (k0 :: ks) s).1 = (k0 :: ks).map (dictLookup fetch) ∧
    (lazyGetSeq fetch (k0 :: ks) s).2.fetches = s.fetches + 1 ∧
    (lazyGetSeq fetch (k0 :: ks) s).2.cache = some fetch ∧
    (lazyGetSeq fetch (k0 :: ks) s).2.stored = s.stored := by
  have hk0 := hstored k0 (List.mem_cons_self k0 ks)
  have hmiss : dictHasKey ([] : List (String × V)) k0 = false := rfl
  have hupd : dictUpdate ([] : List (String × V)) fetch = fetch := by
    simp [dictUpdate]
  have hrest := lazyGetSeq_cached fetch fetch ks
    { s with cache := some fetch, fetches := s.fetches + 1 } rfl
    (fun j hj => hstored j (List.mem_cons_of_mem k0 hj))
    (fun j hj => hfetch j (List.mem_cons_of_mem k0 hj))
  simp only [lazyGetSeq, lazyGetKey, hk0, hcache, Option.getD_none, hmiss,
    Bool.false_eq_true, if_false, hupd, hrest, List.map_cons]
  exact ⟨trivial, trivial, trivial, trivial⟩

/-- C1 witness: the ScrapedActivity grouped keys manual, photos and
device_name (with values modelled as 1, 2, 3), accessed in that order on
a fresh entity: one fetch, every read answered from the cache with the
fetched values, no attribute stored. -/
theorem lazy_group_fetch_once_witness :
    (lazyGetSeq [("manual", 1), ("photos", 2), ("device_name", 3)]
        scrapedActivityLazyKeys
        (⟨fun _ => (none : Option Nat), none, 0⟩ : LazyState Nat)).1 =
      scrapedActivityLazyKeys.map
        (dictLookup [("manual", 1), ("photos", 2), ("device_name", 3)]) ∧
    (lazyGetSeq [("manual", 1), ("photos", 2), ("device_name", 3)]
        scrapedActivityLazyKeys
        (⟨fun _ => (none : Option Nat), none, 0⟩ : LazyState Nat)).2.fetches = 0 + 1 ∧
    (lazyGetSeq [("manual", 1), ("photos", 2), ("device_name", 3)]
        scrapedActivityLazyKeys
        (⟨fun _ => (none : Option Nat), none, 0⟩ : LazyState Nat)).2.cache =
      some [("manual", 1), ("photos", 2), ("device_name", 3)] ∧
    (lazyGetSeq [("manual", 1), ("photos", 2), ("device_name", 3)]
        scrapedActivityLazyKeys
        (⟨fun _ => (none : Option Nat), none, 0⟩ : LazyState Nat)).2.stored =
      fun _ => (none : Option Nat) :=
  lazy_group_fetch_once [("manual", 1), ("photos", 2), ("device_name", 3)]
    "manual" ["photos", "device_name"]
    ⟨fun _ => none, none, 0⟩ rfl (fun k _ => rfl) (by decide)

/-- takeWhile collects exactly a block of satisfying elements up to the
first failing one. -/
theorem takeWhile_eq_of_all {α : Type} (p : α → Bool) (w t : List α) (a : α)
    (hw : ∀ c ∈ w, p c = true) (ha : p a = false) :
    (w ++ a :: t).takeWhile p = w := by
  induction w with
  | nil => simp [List.takeWhile_cons, ha]
  | cons x xs ih =>
    rw [List.cons_append, List.takeWhile_cons, hw x (List.mem_cons_self x xs)]
    rw [if_pos rfl, ih (fun c hc => hw c (List.mem_cons_of_mem x hc))]

/-- dropWhile skips exactly a block of satisfying elements up to the
first failing one. -/
theorem dropWhile_eq_of_all {α : Type} (p : α → Bool) (w t : List α) (a : α)
    (hw : ∀ c ∈ w, p c = true) (ha : p a = false) :
    (w ++ a :: t).dropWhile p = a :: t := by
  induction w with
  | nil => simp [List.dropWhile_cons, ha]
  | cons x xs ih =>
    rw [List.cons_append, List.dropWhile_cons, hw x (List.mem_cons_self x xs)]
    rw [if_pos rfl, ih (fun c hc => hw c (List.mem_cons_of_mem x hc))]

/-- joinWords on two or more words starts with the first word, a space,
then the rest. -/
theorem joinWords_cons_of_ne_nil (w : PyStr) (ws : List PyStr) (h : ws ≠ []) :
    joinWords (w :: ws) = w ++ ' ' :: joinWords ws := by
  cases ws with
  | nil => exact absurd rfl h
  | cons x t => rfl

/-- joinWords of a non-empty list of non-empty words is non-empty. -/
theorem joinWords_ne_nil (ws : List PyStr) (hne : ws ≠ [])
    (h : ∀ w ∈ ws, w ≠ []) : joinWords ws ≠ [] := by
  cases ws with
  | nil => exact absurd rfl hne
  | cons w t =>
    cases t with
    | nil => simpa [joinWords] using h w (List.mem_cons_self w [])
    | cons x t2 => simp [joinWords]

/-- The last character of a space-join of non-empty whitespace-free words
is not whitespace. -/
theorem joinWords_getLast_not_space (ws : List PyStr)
    (h : ∀ w ∈ ws, w ≠ [] ∧ ∀ c ∈ w, pyIsSpace c = false) :
    ∀ x, (joinWords ws).getLast? = some x → pyIsSpace x = false := by
  induction ws with
  | nil => intro x hx; simp [joinWords] at hx
  | cons w t ih =>
    intro x hx
    cases t with
    | nil =>
      have hw := h w (List.mem_cons_self w [])
      have hmem : x ∈ w.getLast? := by rw [Option.mem_def]; exact hx
      rcases List.mem_getLast?_eq_getLast hmem with ⟨hne2, hxe⟩
      exact hxe ▸ hw.2 _ (List.getLast_mem hne2)
    | cons y t2 =>
      rw [joinWords_cons_of_ne_nil w (y :: t2) (List.cons_ne_nil y t2),
        List.getLast?_append_cons] at hx
      have hjw : joinWords (y :: t2) ≠ [] :=
        joinWords_ne_nil _ (List.cons_ne_nil y t2)
          (fun u hu => (h u (List.mem_cons_of_mem w hu)).1)
      rcases hj : joinWords (y :: t2) with _ | ⟨z, r⟩
      · exact absurd hj hjw
      · rw [hj, List.getLast?_cons_cons] at hx
        apply ih (fun u hu => h u (List.mem_cons_of_mem w hu)) x
        rw [hj]
        exact hx

/-- str.strip() is the identity on a string that neither starts nor ends
with whitespace. -/
theorem pyStrip_eq_self (s : PyStr)
    (h1 : ∀ c, s.head? = some c → pyIsSpace c = false)
    (h2 : ∀ c, s.getLast? = some c → pyIsSpace c = false) :
    pyStrip s = s := by
  cases s with
  | nil => rfl
  | cons a t =>
    have ha : pyIsSpace a = false := h1 a rfl
    unfold pyStrip
    rw [List.dropWhile_cons, ha]
    simp only [Bool.false_eq_true, if_false]
    rcases hrev : (a :: t).reverse with _ | ⟨b, r⟩
    · exact absurd hrev (by simp)
    · have hb : pyIsSpace b = false := by
        apply h2
        rw [← List.head?_reverse, hrev]
        rfl
      rw [List.dropWhile_cons, hb]
      simp only [Bool.false_eq_true, if_false]
      rw [← hrev, List.reverse_reverse]

/-- C10: display-name round trip — for a name made of space-separated,
non-empty, whitespace-free words (at least two words, hence at least one
space; no leading, trailing or doubled spaces are expressible in this
shape), with no firstname/lastname in the dict, from_dict splits the name
at the first space into firstname and lastname, and reading the name
attribute (the recomputed LazyLoaded property) returns exactly the
original string. -/
theorem athlete_name_roundtrip (w0 : PyStr) (ws : List PyStr)
    (hne : ∀ w ∈ w0 :: ws, w ≠ [])
    (hsp : ∀ w ∈ w0 :: ws, ∀ c ∈ w, pyIsSpace c = false)
    (hws : ws ≠ []) :
    scrapedAthlete_from_dict ⟨some (joinWords (w0 :: ws)), none, none, none, none⟩ =
      .ok ⟨some w0, some (joinWords ws)⟩ ∧
    athlete_display_name ⟨some w0, some (joinWords ws)⟩ = joinWords (w0 :: ws) := by
  have hj := joinWords_cons_of_ne_nil w0 ws hws
  have hw0 : ∀ c ∈ w0, (c != ' ') = true := by
    intro c hc
    have hcs := hsp w0 (List.mem_cons_self w0 ws) c hc
    rw [bne_iff_ne]
    intro hceq
    rw [hceq] at hcs
    simp [pyIsSpace] at hcs
  have hnil : joinWords (w0 :: ws) ≠ [] :=
    joinWords_ne_nil (w0 :: ws) (List.cons_ne_nil w0 ws) hne
  have hnm : (joinWords (w0 :: ws)).isEmpty = false := by
    rcases hh : (joinWords (w0 :: ws)).isEmpty with _ | _
    · rfl
    · exact absurd (List.isEmpty_iff.mp hh) hnil
  have hsplit : pySplitOnceSpace (joinWords (w0 :: ws)) = some (w0, joinWords ws) := by
    rw [hj]
    unfold pySplitOnceSpace
    rw [dropWhile_eq_of_all _ w0 (joinWords ws) ' ' hw0 (by decide),
      takeWhile_eq_of_all _ w0 (joinWords ws) ' ' hw0 (by decide)]
  constructor
  · simp only [scrapedAthlete_from_dict, hnm, Bool.false_eq_true, if_false, hsplit]
    simp
  · show pyStrip (w0 ++ ' ' :: joinWords ws) = joinWords (w0 :: ws)
    rw [← hj]
    apply pyStrip_eq_self
    · intro c hc
      rcases hw0e : w0 with _ | ⟨c0, w0t⟩
      · exact absurd hw0e (hne w0 (List.mem_cons_self w0 ws))
      · rw [hj, hw0e, List.cons_append, List.head?_cons] at hc
        injection hc with hcc
        subst hcc
        apply hsp w0 (List.mem_cons_self w0 ws)
        rw [hw0e]
        exact List.mem_cons_self c0 w0t
    · exact joinWords_getLast_not_space (w0 :: ws)
        (fun w hw => ⟨hne w hw, hsp w hw⟩)

/-- C10 witness: the three-word display name "Jo van Doe" splits into
firstname "Jo" and lastname "van Doe", and the recomputed name attribute
returns "Jo van Doe" again. -/
theorem athlete_name_roundtrip_witness :
    scrapedAthlete_from_dict
        ⟨some (joinWords [("Jo").toList, ("van").toList, ("Doe").toList]),
          none, none, none, none⟩ =
      .ok ⟨some ("Jo").toList, some (joinWords [("van").toList, ("Doe").toList])⟩ ∧
    athlete_display_name
        ⟨some ("Jo").toList, some (joinWords [("van").toList, ("Doe").toList])⟩ =
      joinWords [("Jo").toList, ("van").toList, ("Doe").toList] :=
  athlete_name_roundtrip ("Jo").toList [("van").toList, ("Doe").toList]
    (by decide) (by decide) (by decide)

end StravaWeb
